import Mathlib

/-!
# Verification development for `src/analysis/01_create_data.py`

The script generates three in-memory tables (flights, customers, bookings)
from seeded random draws and writes them to CSV.  We embed it shallowly:

* every random draw the script performs is an explicit field of a "draws"
  record; `np.random.randint(a, b)` contributes a natural number whose RNG
  contract is `a ≤ x < b`, `np.random.choice(pool)` contributes an index
  into the pool, `np.random.uniform(lo, hi)` contributes a rational in
  `[lo, hi)`, and `np.random.normal(mu, sigma)` is modelled as
  `mu + sigma * z` for an unconstrained rational draw `z`;
* prices and incomes are exact rationals; `round(x, k)` is modelled as
  round-half-even at `k` decimal places over ℚ;
* `datetime` values are modelled as proleptic-Gregorian day numbers
  (days since 1970-01-01), so `datetime(2023,1,1) + timedelta(days=n)`
  becomes `daysFromCivil 2023 1 1 + n` and date subtraction is integer
  subtraction.
-/

namespace Airline

/-- Round-half-even of a rational to an integer (the tie-breaking rule of
Python's built-in `round`). -/
def roundHalfEven (q : ℚ) : ℤ :=
  let f := ⌊q⌋
  let r := q - (f : ℚ)
  if r < 1/2 then f
  else if 1/2 < r then f + 1
  else if f % 2 = 0 then f else f + 1

/-- The script's `round(x, 2)` (two decimal places), over exact rationals. -/
def round2 (q : ℚ) : ℚ := (roundHalfEven (q * 100) : ℚ) / 100

/-- The script's `round(x, 0)` (round to a whole number), over exact
rationals. -/
def round0 (q : ℚ) : ℚ := (roundHalfEven q : ℚ)

/-- Day number of a proleptic Gregorian calendar date, counted from
1970-01-01 (the standard civil-from-days correspondence); used to model the
script's `datetime` arithmetic. -/
def daysFromCivil (y m d : ℤ) : ℤ :=
  let y2 := if m ≤ 2 then y - 1 else y
  let era := (if 0 ≤ y2 then y2 else y2 - 399) / 400
  let yoe := y2 - era * 400
  let mp := (m + 9) % 12
  let doy := (153 * mp + 2) / 5 + d - 1
  let doe := yoe * 365 + yoe / 4 - yoe / 100 + doy
  era * 146097 + doe - 719468

/-- `datetime(2023, 1, 1)` as a day number. -/
def epoch2023 : ℤ := daysFromCivil 2023 1 1

/-! ## Constant pools (module-level literals of the script) -/

def routes : List String := ["NYC-LAX", "NYC-CHI", "LAX-SF", "CHI-MIA", "NYC-BOS"]

def aircraft : List String := ["A320", "B737", "A321"]

def capacities : List ℕ := [150, 180, 220]

/-- The `home_city` pool used inline in the customer loop. -/
def cities : List String := ["NYC", "LAX", "CHI", "MIA", "BOS"]

def n_flights : ℕ := 50000

def n_customers : ℕ := 15000

def n_bookings : ℕ := 150000

/-! ## Identifier formatting

The script formats identifiers with f-strings `f'FL{i+1:05d}'` etc.:
the decimal digits of the number, zero-padded on the left to the given
width (never truncated). -/

/-- The character for a single decimal digit. -/
def digitChar (d : ℕ) : Char :=
  if d = 0 then '0' else if d = 1 then '1' else if d = 2 then '2'
  else if d = 3 then '3' else if d = 4 then '4' else if d = 5 then '5'
  else if d = 6 then '6' else if d = 7 then '7' else if d = 8 then '8' else '9'

/-- Python's `f'{n:0wd}'`: decimal digits of `n`, left-padded with zeros to
width `w`. -/
def fmtNum (w n : ℕ) : String :=
  ⟨(List.replicate (w - (Nat.digits 10 n).length) 0
    ++ (Nat.digits 10 n).reverse).map digitChar⟩

/-! ## Records and per-record draws -/

structure Flight where
  flight_id : String
  route : String
  date : ℤ
  aircraft : String
  capacity : ℕ
  base_price : ℚ
  deriving Repr

structure Customer where
  customer_id : String
  age : ℕ
  income : ℚ
  is_business : ℕ
  home_city : String
  deriving Repr

structure Booking where
  booking_id : String
  flight_id : String
  customer_id : String
  booking_date : ℤ
  price_paid : ℚ
  advance_days : ℕ
  passengers : ℕ
  deriving Repr

/-- The random draws consumed by one iteration of the flight loop.
RNG contracts: `routeIdx < 5`, `planeIdx < 3`, `capIdx < 3`,
`daysFromStart < 365` (from `np.random.randint(0, 365)`), `priceZ`
unconstrained (standard normal). -/
structure FlightDraws where
  routeIdx : ℕ
  planeIdx : ℕ
  capIdx : ℕ
  daysFromStart : ℕ
  priceZ : ℚ

/-- The random draws consumed by one iteration of the customer loop.
RNG contracts: `18 ≤ ageDraw < 70` (from `np.random.randint(18, 70)`),
`incomeZ` unconstrained, `0 ≤ bizDraw < 1` (the uniform variate behind
`np.random.choice([0,1], p=[p0,p1])`), `cityIdx < 5`. -/
structure CustomerDraws where
  ageDraw : ℕ
  incomeZ : ℚ
  bizDraw : ℚ
  cityIdx : ℕ

/-- The random draws consumed by one iteration of the booking loop.
RNG contracts: `flightIdx < 50000` and `custIdx < 15000` (the rows picked
by `.sample(1)`), `1 ≤ daysBefore < 90` (from `np.random.randint(1, 90)`),
`1 ≤ bizFactor < 1.4` (from `np.random.uniform(1.0, 1.4)`), `noiseZ`
unconstrained, `0 ≤ passDraw < 1` (behind the passengers choice). -/
structure BookingDraws where
  flightIdx : ℕ
  custIdx : ℕ
  daysBefore : ℕ
  bizFactor : ℚ
  noiseZ : ℚ
  passDraw : ℚ

/-! ## The three generators -/

/-- Route-dependent Gaussian mean for `base_price` (the if/elif/else on
`route`). -/
def routeMu (route : String) : ℚ :=
  if route = "NYC-LAX" then 400 else if route = "NYC-CHI" then 300 else 250

/-- Route-dependent Gaussian standard deviation for `base_price`. -/
def routeSigma (route : String) : ℚ :=
  if route = "NYC-LAX" then 50 else if route = "NYC-CHI" then 40 else 30

/-- One iteration of the flight loop. -/
def genFlight (i : ℕ) (d : FlightDraws) : Flight :=
  let route := routes.getD d.routeIdx ""
  let base_price := routeMu route + routeSigma route * d.priceZ
  let base_price := max base_price 100
  { flight_id := "FL" ++ fmtNum 5 (i + 1)
    route := route
    date := epoch2023 + (d.daysFromStart : ℤ)
    aircraft := aircraft.getD d.planeIdx ""
    capacity := capacities.getD d.capIdx 0
    base_price := round2 base_price }

/-- The customer's income after the `max(income, 25000)` floor but before
the `round(income, 0)` applied when the record is stored. -/
def custIncomeFloored (d : CustomerDraws) : ℚ :=
  max (60000 + 20000 * d.incomeZ) 25000

/-- The Bernoulli parameter (probability of `is_business = 1`) the script
actually selects: the branch tests the floored, not-yet-rounded income. -/
def custBizProbUsed (d : CustomerDraws) : ℚ :=
  if 80000 < custIncomeFloored d ∧ 30 < d.ageDraw then 0.6 else 0.2

/-- One iteration of the customer loop. -/
def genCustomer (i : ℕ) (d : CustomerDraws) : Customer :=
  { customer_id := "CU" ++ fmtNum 5 (i + 1)
    age := d.ageDraw
    income := round0 (custIncomeFloored d)
    is_business := if d.bizDraw < 1 - custBizProbUsed d then 0 else 1
    home_city := cities.getD d.cityIdx "" }

/-- Out-of-range fallback row (never reached under the RNG contracts). -/
def dummyFlight : Flight :=
  { flight_id := "", route := "", date := 0, aircraft := "", capacity := 0,
    base_price := 0 }

/-- Out-of-range fallback row (never reached under the RNG contracts). -/
def dummyCustomer : Customer :=
  { customer_id := "", age := 0, income := 0, is_business := 0, home_city := "" }

/-- One iteration of the booking loop. -/
def genBooking (flights : List Flight) (customers : List Customer)
    (i : ℕ) (d : BookingDraws) : Booking :=
  let flight := flights.getD d.flightIdx dummyFlight
  let customer := customers.getD d.custIdx dummyCustomer
  let booking_date := flight.date - (d.daysBefore : ℤ)
  let price := flight.base_price
  let price :=
    if d.daysBefore < 7 then price * 1.3
    else if 60 < d.daysBefore then price * 0.85
    else price
  let price := if customer.is_business = 1 then price * d.bizFactor else price
  let price := price * (1 + d.noiseZ / 10)
  let price := max price 100
  { booking_id := "BK" ++ fmtNum 6 (i + 1)
    flight_id := flight.flight_id
    customer_id := customer.customer_id
    booking_date := booking_date
    price_paid := round2 price
    advance_days := d.daysBefore
    passengers := if d.passDraw < 0.7 then 1 else if d.passDraw < 0.9 then 2 else 3 }

/-- The `for i in range(n): data.append(...)` accumulation pattern shared by
the three loops. -/
def genLoop {α : Type} (n : ℕ) (g : ℕ → α) : List α :=
  (List.range n).foldl (fun acc i => acc ++ [g i]) []

/-- The flight generation pass. -/
def genFlights (fd : ℕ → FlightDraws) : List Flight :=
  genLoop n_flights fun i => genFlight i (fd i)

/-- The customer generation pass. -/
def genCustomers (cd : ℕ → CustomerDraws) : List Customer :=
  genLoop n_customers fun i => genCustomer i (cd i)

/-- The booking generation pass, reading the completed flight and customer
tables. -/
def genBookings (flights : List Flight) (customers : List Customer)
    (bd : ℕ → BookingDraws) : List Booking :=
  genLoop n_bookings fun i => genBooking flights customers i (bd i)

/-! ## Program state and sequential steps -/

/-- The three in-memory tables of the script. -/
structure ProgState where
  flights : List Flight
  customers : List Customer
  bookings : List Booking

def initState : ProgState := { flights := [], customers := [], bookings := [] }

/-- The flight pass as a state transition. -/
def stepFlights (fd : ℕ → FlightDraws) (s : ProgState) : ProgState :=
  { s with flights := genFlights fd }

/-- The customer pass as a state transition. -/
def stepCustomers (cd : ℕ → CustomerDraws) (s : ProgState) : ProgState :=
  { s with customers := genCustomers cd }

/-- The booking pass as a state transition: it reads `s.flights` and
`s.customers` and writes only `bookings`. -/
def stepBookings (bd : ℕ → BookingDraws) (s : ProgState) : ProgState :=
  { s with bookings := genBookings s.flights s.customers bd }

/-- What the final report prints. -/
structure Summary where
  flightCount : ℕ
  customerCount : ℕ
  bookingCount : ℕ
  totalRevenue : ℚ
  avgTicket : ℚ
  minDate : Option ℤ
  maxDate : Option ℤ

/-- The final summary computation (pure read of the three tables). -/
def summarize (s : ProgState) : Summary :=
  { flightCount := s.flights.length
    customerCount := s.customers.length
    bookingCount := s.bookings.length
    totalRevenue := (s.bookings.map Booking.price_paid).sum
    avgTicket := (s.bookings.map Booking.price_paid).sum / (s.bookings.length : ℚ)
    minDate := (s.flights.map Flight.date).min?
    maxDate := (s.flights.map Flight.date).max? }

/-- The summary step: produces the report and leaves the state untouched. -/
def stepSummary (s : ProgState) : ProgState × Summary := (s, summarize s)

/-- All draws of one program run (what `np.random.seed` determines). -/
structure RunDraws where
  fd : ℕ → FlightDraws
  cd : ℕ → CustomerDraws
  bd : ℕ → BookingDraws

/-- The whole generation pipeline: flights, then customers, then bookings. -/
def generateAll (r : RunDraws) : ProgState :=
  stepBookings r.bd (stepCustomers r.cd (stepFlights r.fd initState))

/-! ## Definitions taken from the spec's words (for refinement claims) -/

/-- From the spec (§4.3 steps 3–6), stated with the two price bands as
independent multiplications: multiply by 1.3 if `advance_days < 7`;
multiply by 0.85 if `advance_days > 60`; multiply by the business factor
when `is_business = 1`; multiply by the Gaussian noise factor
`N(1.0, 0.1) = 1 + z/10`; floor at 100; round to 2 decimals. -/
def specPricePaid (basePrice : ℚ) (advanceDays : ℕ) (isBusiness : ℕ)
    (businessFactor gaussZ : ℚ) : ℚ :=
  let p1 := if advanceDays < 7 then basePrice * 1.3 else basePrice
  let p2 := if 60 < advanceDays then p1 * 0.85 else p1
  let p3 := if isBusiness = 1 then p2 * businessFactor else p2
  let p4 := p3 * (1 + gaussZ / 10)
  round2 (max p4 100)

/-- From the claim C7's words: the Bernoulli parameter for `is_business`
read off the stored customer record, i.e. conditioning on the rounded
income field. -/
def specBizProb (c : Customer) : ℚ :=
  if 80000 < c.income ∧ 30 < c.age then 0.6 else 0.2

/-! ## Helper lemmas: rounding -/

lemma floor_le_roundHalfEven (q : ℚ) : ⌊q⌋ ≤ roundHalfEven q := by
  unfold roundHalfEven
  dsimp only
  split_ifs <;> omega

lemma roundHalfEven_ge (z : ℤ) (q : ℚ) (h : (z : ℚ) ≤ q) : z ≤ roundHalfEven q :=
  le_trans (Int.le_floor.mpr h) (floor_le_roundHalfEven q)

lemma round2_ge (z : ℤ) (q : ℚ) (h : (z : ℚ) ≤ q) : (z : ℚ) ≤ round2 q := by
  unfold round2
  have h1 : z * 100 ≤ roundHalfEven (q * 100) := by
    refine roundHalfEven_ge _ _ ?_
    push_cast
    nlinarith
  have h2 : ((z * 100 : ℤ) : ℚ) ≤ (roundHalfEven (q * 100) : ℚ) := by exact_mod_cast h1
  rw [le_div_iff₀ (by norm_num : (0:ℚ) < 100)]
  push_cast at h2 ⊢
  linarith

lemma round0_ge (z : ℤ) (q : ℚ) (h : (z : ℚ) ≤ q) : (z : ℚ) ≤ round0 q := by
  unfold round0
  exact_mod_cast roundHalfEven_ge z q h

/-! ## Helper lemmas: the accumulation loop and list access -/

lemma foldl_append_eq_map {α : Type} (g : ℕ → α) (l : List ℕ) (acc : List α) :
    l.foldl (fun a i => a ++ [g i]) acc = acc ++ l.map g := by
  induction l generalizing acc with
  | nil => simp
  | cons x xs ih => simp [ih]

lemma genLoop_eq_map {α : Type} (n : ℕ) (g : ℕ → α) :
    genLoop n g = (List.range n).map g := by
  unfold genLoop
  rw [foldl_append_eq_map]
  simp

lemma genLoop_length {α : Type} (n : ℕ) (g : ℕ → α) : (genLoop n g).length = n := by
  rw [genLoop_eq_map]; simp

lemma getD_map_range {α : Type} (g : ℕ → α) (n k : ℕ) (h : k < n) (a : α) :
    ((List.range n).map g).getD k a = g k := by
  rw [List.getD_eq_getElem _ a (by simpa using h)]
  simp [h]

lemma genLoop_getD {α : Type} (n : ℕ) (g : ℕ → α) (k : ℕ) (h : k < n) (a : α) :
    (genLoop n g).getD k a = g k := by
  rw [genLoop_eq_map]
  exact getD_map_range g n k h a

lemma getD_mem_of_lt {α : Type} (l : List α) (k : ℕ) (a : α) (h : k < l.length) :
    l.getD k a ∈ l := by
  rw [List.getD_eq_getElem l a h]
  exact List.getElem_mem h

/-! ## Helper lemmas: identifier formatting is injective -/

/-- Digit value of a digit character (left inverse of `digitChar`). -/
def charToDigit (c : Char) : ℕ := c.toNat - 48

/-- Decimal value of a big-endian digit list. -/
def decodeBE (l : List ℕ) : ℕ := l.foldl (fun acc d => acc * 10 + d) 0

/-- Decimal value of a string of digit characters. -/
def decodeStr (s : String) : ℕ := decodeBE (s.data.map charToDigit)

lemma charToDigit_digitChar : ∀ d < 10, charToDigit (digitChar d) = d := by decide

lemma foldl_reverse_digits (l : List ℕ) : ∀ acc : ℕ,
    (l.reverse).foldl (fun a d => a * 10 + d) acc
      = acc * 10 ^ l.length + Nat.ofDigits 10 l := by
  induction l with
  | nil => intro acc; simp
  | cons d t ih =>
    intro acc
    simp [List.foldl_append, ih, Nat.ofDigits_cons, pow_succ]
    ring

lemma map_map_cancel {α β : Type} (l : List α) (f : α → β) (g : β → α)
    (h : ∀ x ∈ l, g (f x) = x) : (l.map f).map g = l := by
  rw [List.map_map]
  exact (List.map_congr_left h).trans (List.map_id l)

lemma decodeStr_fmtNum (w n : ℕ) : decodeStr (fmtNum w n) = n := by
  unfold decodeStr fmtNum decodeBE
  rw [map_map_cancel]
  · rw [List.foldl_append]
    have hzero : ∀ z : ℕ, (List.replicate z 0).foldl (fun a d => a * 10 + d) 0 = 0 := by
      intro z
      induction z with
      | zero => simp
      | succ m ih => simpa [List.replicate_succ] using ih
    rw [hzero, foldl_reverse_digits]
    simp [Nat.ofDigits_digits]
  · intro x hx
    rcases List.mem_append.mp hx with hx | hx
    · have : x = 0 := List.eq_of_mem_replicate hx
      subst this
      exact charToDigit_digitChar 0 (by norm_num)
    · have : x < 10 := Nat.digits_lt_base (by norm_num) (List.mem_reverse.mp hx)
      exact charToDigit_digitChar x this

lemma fmtNum_injective (w : ℕ) : Function.Injective (fmtNum w) := by
  intro a b h
  have := congrArg decodeStr h
  rwa [decodeStr_fmtNum, decodeStr_fmtNum] at this

lemma string_data_append (s t : String) : (s ++ t).data = s.data ++ t.data := by
  cases s; cases t; rfl

lemma string_data_inj (s t : String) (h : s.data = t.data) : s = t := by
  cases s; cases t; exact congrArg String.mk h

lemma prefixed_fmtNum_injective (p : String) (w : ℕ) :
    Function.Injective (fun k : ℕ => p ++ fmtNum w (k + 1)) := by
  intro a b h
  have hd := congrArg String.data h
  rw [string_data_append, string_data_append] at hd
  have hf : fmtNum w (a + 1) = fmtNum w (b + 1) :=
    string_data_inj _ _ (List.append_cancel_left hd)
  have := fmtNum_injective w hf
  omega

/-! ## Concrete sample inputs (used by witness theorems) -/

def sampleFlightDraws : FlightDraws :=
  { routeIdx := 0, planeIdx := 0, capIdx := 0, daysFromStart := 0, priceZ := 0 }

def sampleCustomerDraws : CustomerDraws :=
  { ageDraw := 30, incomeZ := 0, bizDraw := 0, cityIdx := 0 }

def sampleBookingDraws : BookingDraws :=
  { flightIdx := 0, custIdx := 0, daysBefore := 30, bizFactor := 1.2, noiseZ := 0,
    passDraw := 0 }

def sampleFlight : Flight :=
  { flight_id := "FL00001", route := "NYC-LAX", date := epoch2023, aircraft := "A320",
    capacity := 150, base_price := 400 }

def sampleCustomer : Customer :=
  { customer_id := "CU00001", age := 40, income := 90000, is_business := 1,
    home_city := "NYC" }

/-! ## Claim theorems -/

/-- Claim C1: every generated booking's `price_paid` is obtained from the
referenced flight's `base_price` by the spec's pipeline, in order: the
mutually exclusive advance-day bands (×1.3 when `advance_days < 7`, ×0.85
when `advance_days > 60`, unchanged in between), then the business
multiplier when the referenced customer's `is_business = 1`, then the
Gaussian noise factor `1 + z/10` (mean 1.0, stdev 0.1), then the floor at
100, then rounding to 2 decimals. -/
theorem C1_price_pipeline (flights : List Flight) (customers : List Customer)
    (i : ℕ) (d : BookingDraws)
    (hf : d.flightIdx < flights.length) (hc : d.custIdx < customers.length) :
    (genBooking flights customers i d).price_paid =
      specPricePaid (flights.getD d.flightIdx dummyFlight).base_price
        d.daysBefore (customers.getD d.custIdx dummyCustomer).is_business
        d.bizFactor d.noiseZ := by
  unfold genBooking specPricePaid
  dsimp only
  by_cases h7 : d.daysBefore < 7
  · have h60 : ¬ 60 < d.daysBefore := by omega
    simp [h7, h60]
  · by_cases h60 : 60 < d.daysBefore <;> simp [h7, h60]

/-- Witness for C1 at a concrete flight pool, customer pool and draw. -/
theorem C1_price_pipeline_witness :
    sampleBookingDraws.flightIdx < ([sampleFlight] : List Flight).length ∧
    sampleBookingDraws.custIdx < ([sampleCustomer] : List Customer).length ∧
    (genBooking [sampleFlight] [sampleCustomer] 0 sampleBookingDraws).price_paid =
      specPricePaid (([sampleFlight] : List Flight).getD sampleBookingDraws.flightIdx
        dummyFlight).base_price sampleBookingDraws.daysBefore
        (([sampleCustomer] : List Customer).getD sampleBookingDraws.custIdx
          dummyCustomer).is_business sampleBookingDraws.bizFactor
        sampleBookingDraws.noiseZ :=
  ⟨by simp [sampleBookingDraws], by simp [sampleBookingDraws],
    C1_price_pipeline [sampleFlight] [sampleCustomer] 0 sampleBookingDraws
      (by simp [sampleBookingDraws]) (by simp [sampleBookingDraws])⟩

/-- Claim C2: price fields are always at least 100 — every generated
flight's `base_price` and every generated booking's `price_paid` satisfy
`≥ 100`, for arbitrary (even unboundedly negative) Gaussian draws, and the
final rounding to 2 decimals preserves the bound. -/
theorem C2_price_floor :
    (∀ (i : ℕ) (d : FlightDraws), (100 : ℚ) ≤ (genFlight i d).base_price) ∧
    (∀ (flights : List Flight) (customers : List Customer) (i : ℕ)
      (d : BookingDraws), (100 : ℚ) ≤ (genBooking flights customers i d).price_paid) := by
  constructor
  · intro i d
    unfold genFlight
    dsimp only
    have h := round2_ge 100 (max (routeMu (routes.getD d.routeIdx "")
      + routeSigma (routes.getD d.routeIdx "") * d.priceZ) 100)
      (by push_cast; exact le_max_right _ _)
    push_cast at h
    exact h
  · intro flights customers i d
    unfold genBooking
    dsimp only
    refine le_of_eq_of_le (by norm_num) (round2_ge 100 _ ?_)
    push_cast
    exact le_max_right _ _

/-- Claim C3: every generated booking's `advance_days` comes from
`randint(1, 90)`, hence lies in `[1, 89]`, and `booking_date` equals the
referenced flight's date minus exactly `advance_days` days, so the booking
date is strictly before the flight date. -/
theorem C3_advance_days (flights : List Flight) (customers : List Customer)
    (i : ℕ) (d : BookingDraws) (hf : d.flightIdx < flights.length)
    (h1 : 1 ≤ d.daysBefore) (h2 : d.daysBefore < 90) :
    (genBooking flights customers i d).advance_days = d.daysBefore ∧
    1 ≤ (genBooking flights customers i d).advance_days ∧
    (genBooking flights customers i d).advance_days ≤ 89 ∧
    (genBooking flights customers i d).booking_date =
      (flights.getD d.flightIdx dummyFlight).date
        - ((genBooking flights customers i d).advance_days : ℤ) ∧
    (genBooking flights customers i d).booking_date <
      (flights.getD d.flightIdx dummyFlight).date := by
  unfold genBooking
  dsimp only
  refine ⟨rfl, h1, by omega, rfl, ?_⟩
  have : (1 : ℤ) ≤ (d.daysBefore : ℤ) := by exact_mod_cast h1
  omega

/-- Witness for C3 at a concrete flight pool and draw. -/
theorem C3_advance_days_witness :
    sampleBookingDraws.flightIdx < ([sampleFlight] : List Flight).length ∧
    1 ≤ sampleBookingDraws.daysBefore ∧ sampleBookingDraws.daysBefore < 90 ∧
    ((genBooking [sampleFlight] [] 0 sampleBookingDraws).advance_days =
        sampleBookingDraws.daysBefore ∧
      1 ≤ (genBooking [sampleFlight] [] 0 sampleBookingDraws).advance_days ∧
      (genBooking [sampleFlight] [] 0 sampleBookingDraws).advance_days ≤ 89 ∧
      (genBooking [sampleFlight] [] 0 sampleBookingDraws).booking_date =
        (([sampleFlight] : List Flight).getD sampleBookingDraws.flightIdx
            dummyFlight).date
          - ((genBooking [sampleFlight] [] 0 sampleBookingDraws).advance_days : ℤ) ∧
      (genBooking [sampleFlight] [] 0 sampleBookingDraws).booking_date <
        (([sampleFlight] : List Flight).getD sampleBookingDraws.flightIdx
            dummyFlight).date) :=
  ⟨by simp [sampleBookingDraws], by simp [sampleBookingDraws],
    by simp [sampleBookingDraws],
    C3_advance_days [sampleFlight] [] 0 sampleBookingDraws
      (by simp [sampleBookingDraws]) (by simp [sampleBookingDraws])
      (by simp [sampleBookingDraws])⟩

/-- Claim C4: every generated booking references rows that exist — its
`flight_id` is the identifier of some flight in the flight pool it samples
from, and its `customer_id` is the identifier of some customer in the
customer pool. -/
theorem C4_referential (flights : List Flight) (customers : List Customer)
    (i : ℕ) (d : BookingDraws)
    (hf : d.flightIdx < flights.length) (hc : d.custIdx < customers.length) :
    (∃ fl ∈ flights, (genBooking flights customers i d).flight_id = fl.flight_id) ∧
    (∃ cu ∈ customers, (genBooking flights customers i d).customer_id = cu.customer_id) :=
  ⟨⟨flights.getD d.flightIdx dummyFlight, getD_mem_of_lt flights d.flightIdx dummyFlight hf,
      rfl⟩,
    ⟨customers.getD d.custIdx dummyCustomer, getD_mem_of_lt customers d.custIdx dummyCustomer hc,
      rfl⟩⟩

/-- Witness for C4 at a concrete flight pool, customer pool and draw. -/
theorem C4_referential_witness :
    sampleBookingDraws.flightIdx < ([sampleFlight] : List Flight).length ∧
    sampleBookingDraws.custIdx < ([sampleCustomer] : List Customer).length ∧
    ((∃ fl ∈ ([sampleFlight] : List Flight),
        (genBooking [sampleFlight] [sampleCustomer] 0 sampleBookingDraws).flight_id =
          fl.flight_id) ∧
      (∃ cu ∈ ([sampleCustomer] : List Customer),
        (genBooking [sampleFlight] [sampleCustomer] 0 sampleBookingDraws).customer_id =
          cu.customer_id)) :=
  ⟨by simp [sampleBookingDraws], by simp [sampleBookingDraws],
    C4_referential [sampleFlight] [sampleCustomer] 0 sampleBookingDraws
      (by simp [sampleBookingDraws]) (by simp [sampleBookingDraws])⟩

/-- Claim C5: the generator produces exactly 50,000 flights, 15,000
customers and 150,000 bookings; the k-th flight (k from 1) has id `FL` ++
k zero-padded to 5 digits, the k-th customer `CU` ++ k zero-padded to 5
digits, the k-th booking `BK` ++ k zero-padded to 6 digits; and within
each table all identifiers are distinct. -/
theorem C5_counts_and_ids (fd : ℕ → FlightDraws) (cd : ℕ → CustomerDraws)
    (bd : ℕ → BookingDraws) (flights : List Flight) (customers : List Customer) :
    (genFlights fd).length = 50000 ∧
    (genCustomers cd).length = 15000 ∧
    (genBookings flights customers bd).length = 150000 ∧
    (genFlights fd).map Flight.flight_id
      = (List.range 50000).map (fun k => "FL" ++ fmtNum 5 (k + 1)) ∧
    (genCustomers cd).map Customer.customer_id
      = (List.range 15000).map (fun k => "CU" ++ fmtNum 5 (k + 1)) ∧
    (genBookings flights customers bd).map Booking.booking_id
      = (List.range 150000).map (fun k => "BK" ++ fmtNum 6 (k + 1)) ∧
    ((genFlights fd).map Flight.flight_id).Nodup ∧
    ((genCustomers cd).map Customer.customer_id).Nodup ∧
    ((genBookings flights customers bd).map Booking.booking_id).Nodup := by
  have hF : (genFlights fd).map Flight.flight_id
      = (List.range 50000).map (fun k => "FL" ++ fmtNum 5 (k + 1)) := by
    rw [genFlights, genLoop_eq_map, List.map_map]
    rfl
  have hC : (genCustomers cd).map Customer.customer_id
      = (List.range 15000).map (fun k => "CU" ++ fmtNum 5 (k + 1)) := by
    rw [genCustomers, genLoop_eq_map, List.map_map]
    rfl
  have hB : (genBookings flights customers bd).map Booking.booking_id
      = (List.range 150000).map (fun k => "BK" ++ fmtNum 6 (k + 1)) := by
    rw [genBookings, genLoop_eq_map, List.map_map]
    rfl
  refine ⟨?_, ?_, ?_, hF, hC, hB, ?_, ?_, ?_⟩
  · rw [genFlights, genLoop_length]; rfl
  · rw [genCustomers, genLoop_length]; rfl
  · rw [genBookings, genLoop_length]; rfl
  · rw [hF]
    exact (List.nodup_range 50000).map (prefixed_fmtNum_injective "FL" 5)
  · rw [hC]
    exact (List.nodup_range 15000).map (prefixed_fmtNum_injective "CU" 5)
  · rw [hB]
    exact (List.nodup_range 150000).map (prefixed_fmtNum_injective "BK" 6)

/-- Claim C6: every generated flight's date is January 1, 2023 plus the
`randint(0, 365)` offset, hence lies within 2023-01-01 .. 2023-12-31
inclusive, and both endpoints are reachable by some draw. -/
theorem C6_flight_date (i : ℕ) (d : FlightDraws) (h : d.daysFromStart < 365) :
    (daysFromCivil 2023 1 1 ≤ (genFlight i d).date ∧
      (genFlight i d).date ≤ daysFromCivil 2023 12 31) ∧
    (∃ d0 : FlightDraws, (genFlight i d0).date = daysFromCivil 2023 1 1) ∧
    (∃ d1 : FlightDraws, (genFlight i d1).date = daysFromCivil 2023 12 31) := by
  have key : daysFromCivil 2023 12 31 = daysFromCivil 2023 1 1 + 364 := by decide
  have hdate : ∀ d2 : FlightDraws,
      (genFlight i d2).date = daysFromCivil 2023 1 1 + (d2.daysFromStart : ℤ) := by
    intro d2
    rfl
  refine ⟨⟨?_, ?_⟩, ⟨⟨0, 0, 0, 0, 0⟩, ?_⟩, ⟨⟨0, 0, 0, 364, 0⟩, ?_⟩⟩
  · rw [hdate]
    omega
  · rw [hdate, key]
    have : (d.daysFromStart : ℤ) ≤ 364 := by exact_mod_cast Nat.lt_succ_iff.mp h
    omega
  · rw [hdate]
    norm_num
  · rw [hdate, key]
    norm_num
/-- Witness for C6 at a concrete draw. -/
theorem C6_flight_date_witness :
    sampleFlightDraws.daysFromStart < 365 ∧
    ((daysFromCivil 2023 1 1 ≤ (genFlight 0 sampleFlightDraws).date ∧
        (genFlight 0 sampleFlightDraws).date ≤ daysFromCivil 2023 12 31) ∧
      (∃ d0 : FlightDraws, (genFlight 0 d0).date = daysFromCivil 2023 1 1) ∧
      (∃ d1 : FlightDraws, (genFlight 0 d1).date = daysFromCivil 2023 12 31)) :=
  ⟨by norm_num [sampleFlightDraws],
    C6_flight_date 0 sampleFlightDraws (by norm_num [sampleFlightDraws])⟩

/-- Concrete customer draw refuting claim C7 as stated: the raw income
draw is 80000.25, which is floored to itself, passes the `income > 80000`
branch test, and is only then rounded down to 80000 for the stored field. -/
def cexCustomerDraws : CustomerDraws :=
  { ageDraw := 40, incomeZ := 80001/80000, bizDraw := 1/2, cityIdx := 0 }

/-- Counterexample to claim C7: at `cexCustomerDraws` the script selects
the Bernoulli parameter 0.6, yet the stored (rounded) income is exactly
80000, so the claim's condition `income > 80000` on the customer record
predicts parameter 0.2. -/
theorem C7_counterexample :
    custBizProbUsed cexCustomerDraws = 0.6 ∧
    (genCustomer 0 cexCustomerDraws).age = 40 ∧
    (genCustomer 0 cexCustomerDraws).income = 80000 ∧
    specBizProb (genCustomer 0 cexCustomerDraws) = 0.2 ∧
    specBizProb (genCustomer 0 cexCustomerDraws) ≠ custBizProbUsed cexCustomerDraws := by
  have hfloor : custIncomeFloored cexCustomerDraws = 320001/4 := by
    unfold custIncomeFloored cexCustomerDraws
    rw [max_eq_left (by norm_num)]
    norm_num
  have hrhe : roundHalfEven (320001/4) = 80000 := by
    unfold roundHalfEven
    norm_num [Int.floor_eq_iff]
  have hused : custBizProbUsed cexCustomerDraws = 0.6 := by
    unfold custBizProbUsed
    rw [hfloor]
    norm_num [cexCustomerDraws]
  have hincome : (genCustomer 0 cexCustomerDraws).income = 80000 := by
    show round0 (custIncomeFloored cexCustomerDraws) = 80000
    rw [round0, hfloor, hrhe]
    norm_num
  have hspec : specBizProb (genCustomer 0 cexCustomerDraws) = 0.2 := by
    unfold specBizProb
    rw [hincome]
    norm_num
  exact ⟨hused, rfl, hincome, hspec, by rw [hspec, hused]; norm_num⟩

/-- Claim C7 as amended: age is the `randint(18, 70)` draw (hence in
`[18, 69]`); the stored income is the Gaussian draw floored at 25000 and
rounded to a whole number (hence `≥ 25000` and integral); `is_business`
is a Bernoulli draw whose parameter is 0.6 when the floored **pre-rounding**
income exceeds 80000 and age exceeds 30, and 0.2 otherwise (so
`is_business ∈ {0, 1}`); and `home_city` comes from the 5 fixed cities. -/
theorem C7_customer_amended (i : ℕ) (d : CustomerDraws)
    (ha1 : 18 ≤ d.ageDraw) (ha2 : d.ageDraw < 70)
    (hb1 : 0 ≤ d.bizDraw) (hb2 : d.bizDraw < 1) (hcity : d.cityIdx < 5) :
    (18 ≤ (genCustomer i d).age ∧ (genCustomer i d).age ≤ 69) ∧
    (25000 : ℚ) ≤ (genCustomer i d).income ∧
    (∃ n : ℤ, (genCustomer i d).income = (n : ℚ)) ∧
    ((genCustomer i d).is_business = 0 ∨ (genCustomer i d).is_business = 1) ∧
    (genCustomer i d).home_city ∈ cities ∧
    custBizProbUsed d
      = (if 80000 < custIncomeFloored d ∧ 30 < d.ageDraw then (0.6 : ℚ) else 0.2) ∧
    ((genCustomer i d).is_business = 1 ↔ 1 - custBizProbUsed d ≤ d.bizDraw) := by
  refine ⟨⟨ha1, by show d.ageDraw ≤ 69; omega⟩, ?_, ⟨roundHalfEven (custIncomeFloored d), rfl⟩,
    ?_, ?_, rfl, ?_⟩
  · have h := round0_ge 25000 (custIncomeFloored d) (by push_cast; exact le_max_right _ _)
    push_cast at h
    exact h
  · show (if d.bizDraw < 1 - custBizProbUsed d then 0 else 1) = 0 ∨
      (if d.bizDraw < 1 - custBizProbUsed d then 0 else 1) = 1
    split_ifs <;> simp
  · exact getD_mem_of_lt cities d.cityIdx "" (by simpa [cities] using hcity)
  · show (if d.bizDraw < 1 - custBizProbUsed d then 0 else 1) = 1 ↔
      1 - custBizProbUsed d ≤ d.bizDraw
    split_ifs with hsplit
    · constructor
      · intro h01
        exact absurd h01 (by norm_num)
      · intro hle
        exact absurd hsplit (not_lt.mpr hle)
    · exact ⟨fun _ => not_lt.mp hsplit, fun _ => rfl⟩

/-- Witness for the amended C7 at a concrete draw. -/
theorem C7_customer_amended_witness :
    18 ≤ sampleCustomerDraws.ageDraw ∧ sampleCustomerDraws.ageDraw < 70 ∧
    0 ≤ sampleCustomerDraws.bizDraw ∧ sampleCustomerDraws.bizDraw < 1 ∧
    sampleCustomerDraws.cityIdx < 5 ∧
    ((18 ≤ (genCustomer 0 sampleCustomerDraws).age ∧
        (genCustomer 0 sampleCustomerDraws).age ≤ 69) ∧
      (25000 : ℚ) ≤ (genCustomer 0 sampleCustomerDraws).income ∧
      (∃ n : ℤ, (genCustomer 0 sampleCustomerDraws).income = (n : ℚ)) ∧
      ((genCustomer 0 sampleCustomerDraws).is_business = 0 ∨
        (genCustomer 0 sampleCustomerDraws).is_business = 1) ∧
      (genCustomer 0 sampleCustomerDraws).home_city ∈ cities ∧
      custBizProbUsed sampleCustomerDraws
        = (if 80000 < custIncomeFloored sampleCustomerDraws ∧
            30 < sampleCustomerDraws.ageDraw then (0.6 : ℚ) else 0.2) ∧
      ((genCustomer 0 sampleCustomerDraws).is_business = 1 ↔
        1 - custBizProbUsed sampleCustomerDraws ≤ sampleCustomerDraws.bizDraw)) :=
  ⟨by norm_num [sampleCustomerDraws], by norm_num [sampleCustomerDraws],
    by norm_num [sampleCustomerDraws], by norm_num [sampleCustomerDraws],
    by norm_num [sampleCustomerDraws],
    C7_customer_amended 0 sampleCustomerDraws (by norm_num [sampleCustomerDraws])
      (by norm_num [sampleCustomerDraws]) (by norm_num [sampleCustomerDraws])
      (by norm_num [sampleCustomerDraws]) (by norm_num [sampleCustomerDraws])⟩

/-- Claim C8: the whole generation is a deterministic function of the
draws produced by the seeded RNG — for any (platform) map from seeds to
draw streams, two runs with equal seeds yield identical tables and hence
identical output under any serialization. -/
theorem C8_deterministic (prng : ℕ → RunDraws) (s1 s2 : ℕ) (h : s1 = s2) :
    generateAll (prng s1) = generateAll (prng s2) ∧
    ∀ render : ProgState → String,
      render (generateAll (prng s1)) = render (generateAll (prng s2)) := by
  subst h
  exact ⟨rfl, fun _ => rfl⟩

/-- A fixed seed-to-draws map (one concrete RNG implementation). -/
def constRunDraws : RunDraws :=
  { fd := fun _ => sampleFlightDraws, cd := fun _ => sampleCustomerDraws,
    bd := fun _ => sampleBookingDraws }

/-- A concrete seed-to-draws map for the C8 witness. -/
def constPrng : ℕ → RunDraws := fun _ => constRunDraws

/-- Witness for C8: two runs with the fixed seed 42. -/
theorem C8_deterministic_witness :
    (42 : ℕ) = 42 ∧
    (generateAll (constPrng 42) = generateAll (constPrng 42) ∧
      ∀ render : ProgState → String,
        render (generateAll (constPrng 42)) = render (generateAll (constPrng 42))) :=
  ⟨rfl, C8_deterministic constPrng 42 42 rfl⟩

/-- Claim C9: the booking pass writes only the bookings table — the
flights and customers tables are exactly those produced by their own
generation passes — and the summary step changes no table at all. -/
theorem C9_frame (r : RunDraws) (s : ProgState) :
    (stepBookings r.bd s).flights = s.flights ∧
    (stepBookings r.bd s).customers = s.customers ∧
    (stepSummary s).1 = s ∧
    (generateAll r).flights = genFlights r.fd ∧
    (generateAll r).customers = genCustomers r.cd ∧
    (generateAll r).bookings = genBookings (genFlights r.fd) (genCustomers r.cd) r.bd := by
  obtain ⟨fl, cu, bk⟩ := s
  refine ⟨rfl, rfl, rfl, ?_, ?_, ?_⟩ <;>
    simp [generateAll, stepBookings, stepCustomers, stepFlights, initState]

/-- Claim C10: every generated booking's date lies between 2022-10-04 and
2023-12-30 inclusive, and for some draws the booking date falls strictly
before 2023-01-01 even though every flight date lies in 2023. -/
theorem C10_booking_date_range (fd : ℕ → FlightDraws)
    (hfd : ∀ j, (fd j).daysFromStart < 365)
    (customers : List Customer) (i : ℕ) (d : BookingDraws)
    (hf : d.flightIdx < n_flights) (h1 : 1 ≤ d.daysBefore) (h2 : d.daysBefore < 90) :
    (daysFromCivil 2022 10 4 ≤ (genBooking (genFlights fd) customers i d).booking_date ∧
      (genBooking (genFlights fd) customers i d).booking_date ≤ daysFromCivil 2023 12 30) ∧
    (∃ (fd0 : ℕ → FlightDraws) (d0 : BookingDraws),
      (∀ j, (fd0 j).daysFromStart < 365) ∧ d0.flightIdx < n_flights ∧
      1 ≤ d0.daysBefore ∧ d0.daysBefore < 90 ∧
      (genBooking (genFlights fd0) customers i d0).booking_date
        < daysFromCivil 2023 1 1) := by
  have key1 : daysFromCivil 2022 10 4 = daysFromCivil 2023 1 1 - 89 := by decide
  have key2 : daysFromCivil 2023 12 30 = daysFromCivil 2023 1 1 + 363 := by decide
  have hbd : ∀ (fd1 : ℕ → FlightDraws) (d1 : BookingDraws), d1.flightIdx < n_flights →
      (genBooking (genFlights fd1) customers i d1).booking_date
        = daysFromCivil 2023 1 1 + ((fd1 d1.flightIdx).daysFromStart : ℤ)
          - (d1.daysBefore : ℤ) := by
    intro fd1 d1 hlt
    show ((genFlights fd1).getD d1.flightIdx dummyFlight).date - (d1.daysBefore : ℤ) = _
    rw [genFlights, genLoop_getD _ _ _ hlt]
    rfl
  constructor
  · rw [hbd fd d hf, key1, key2]
    have h365 := hfd d.flightIdx
    omega
  · refine ⟨fun _ => sampleFlightDraws, ⟨0, 0, 1, 1, 0, 0⟩,
      fun _ => by norm_num [sampleFlightDraws], by norm_num [n_flights],
      le_refl 1, by norm_num, ?_⟩
    rw [hbd (fun _ => sampleFlightDraws) ⟨0, 0, 1, 1, 0, 0⟩ (by norm_num [n_flights])]
    norm_num [sampleFlightDraws]

/-- Witness for C10 at a concrete draw stream and booking draw. -/
theorem C10_booking_date_range_witness :
    (∀ j, ((fun _ : ℕ => sampleFlightDraws) j).daysFromStart < 365) ∧
    sampleBookingDraws.flightIdx < n_flights ∧
    1 ≤ sampleBookingDraws.daysBefore ∧ sampleBookingDraws.daysBefore < 90 ∧
    ((daysFromCivil 2022 10 4 ≤
        (genBooking (genFlights fun _ => sampleFlightDraws) [] 0
          sampleBookingDraws).booking_date ∧
      (genBooking (genFlights fun _ => sampleFlightDraws) [] 0
          sampleBookingDraws).booking_date ≤ daysFromCivil 2023 12 30) ∧
    (∃ (fd0 : ℕ → FlightDraws) (d0 : BookingDraws),
      (∀ j, (fd0 j).daysFromStart < 365) ∧ d0.flightIdx < n_flights ∧
      1 ≤ d0.daysBefore ∧ d0.daysBefore < 90 ∧
      (genBooking (genFlights fd0) [] 0 d0).booking_date
        < daysFromCivil 2023 1 1)) :=
  ⟨fun _ => by norm_num [sampleFlightDraws],
    by norm_num [n_flights, sampleBookingDraws],
    by norm_num [sampleBookingDraws], by norm_num [sampleBookingDraws],
    C10_booking_date_range (fun _ => sampleFlightDraws)
      (fun _ => by norm_num [sampleFlightDraws]) [] 0 sampleBookingDraws
      (by norm_num [n_flights, sampleBookingDraws])
      (by norm_num [sampleBookingDraws]) (by norm_num [sampleBookingDraws])⟩

end Airline
